import Mathlib

/-!
Shallow embedding of the booking/payment flow of `alx_travel_app`
(`listings/models.py`, `listings/views.py`, `listings/tasks.py`).

Conventions of the embedding:
* Django model rows become Lean structures; enumerated `CharField` statuses
  stay strings exactly as the source writes them.
* `DecimalField` amounts become `Rat` (the source never computes on them,
  it only copies and stringifies).
* Timestamps become `Nat` ticks supplied by the caller (`timezone.now()` /
  `auto_now` / `auto_now_add` are stamped with the tick of the call).
* The database is an explicit state `St` of lists of rows; `save()` on an
  existing row replaces the row with the same primary key, `objects.create`
  appends.
* The outbound Chapa HTTP calls are externalised: each operation takes the
  gateway outcome (`GwInit` / `GwVerify`) as an argument, mirroring the
  branches the view code takes on `response.status_code` / body.
* Fresh UUIDs and primary keys are likewise passed in by the caller.
* A Python `AttributeError` on a missing model attribute is modelled as
  `none` from an attribute-lookup function over the fields that
  `models.py` actually declares.
-/

namespace AlxTravelApp

/-- Django auth user as used by the views (`request.user`). -/
structure User where
  id : Nat
  username : String
  email : String
  first_name : String
  last_name : String
deriving DecidableEq

/-- Row of `Listing` (`models.py` lines 8-18): the model declares exactly
`title`, `description`, `location`, `price_per_night`, `available`,
`created_at` — there is no `name` field. -/
structure Listing where
  id : Nat
  title : String
  description : String
  location : String
  price_per_night : Rat
  available : Bool
  created_at : Nat
deriving DecidableEq

/-- Python attribute lookup on a `Listing` instance, restricted to its text
fields. Any attribute that `models.py` does not declare — in particular the
`name` read by `views.py` — raises `AttributeError`, modelled as `none`. -/
def Listing.attr (l : Listing) (f : String) : Option String :=
  if f == "title" then some l.title
  else if f == "description" then some l.description
  else if f == "location" then some l.location
  else none

/-- Row of `Booking` (`models.py` lines 21-38). `listing` and `user` are the
foreign keys, `status` is one of the strings pending/confirmed/cancelled. -/
structure Booking where
  id : Nat
  booking_id : String
  listing : Nat
  user : Nat
  check_in : String
  check_out : String
  guests : Nat
  total_price : Rat
  status : String
  created_at : Nat
deriving DecidableEq

/-- Row of `Payment` (`models.py` lines 41-60). The declared fields are
`payment_id`, `booking`, `transaction_id`, `amount`, `currency`,
`payment_status`, `payment_method`, `chapa_reference`, `checkout_url`,
`created_at`, `updated_at`. There is NO `verified_at` column: `views.py`
assigns `payment.verified_at` on the instance, but `save()` only persists
declared fields, so the store holds nothing for it. `updated_at` has
`auto_now=True`: every `save()` restamps it. -/
structure Payment where
  id : Nat
  payment_id : String
  booking : Nat
  transaction_id : String
  amount : Rat
  currency : String
  payment_status : String
  payment_method : String
  chapa_reference : String
  checkout_url : String
  created_at : Nat
  updated_at : Nat
deriving DecidableEq

/-- Stand-in for the Python str() rendering of a Decimal; no claim depends
on the exact text. -/
def ratStr (q : Rat) : String := toString q.num ++ "/" ++ toString q.den

/-- Python attribute lookup on a fetched `Payment` instance, over the
fields `models.py` declares; `verified_at` (read by the `payment_status`
view) is not among them and raises `AttributeError`, modelled as `none`. -/
def Payment.attr (p : Payment) (f : String) : Option String :=
  if f == "payment_id" then some p.payment_id
  else if f == "transaction_id" then some p.transaction_id
  else if f == "amount" then some (ratStr p.amount)
  else if f == "currency" then some p.currency
  else if f == "payment_status" then some p.payment_status
  else if f == "payment_method" then some p.payment_method
  else if f == "chapa_reference" then some p.chapa_reference
  else if f == "checkout_url" then some p.checkout_url
  else if f == "created_at" then some (toString p.created_at)
  else if f == "updated_at" then some (toString p.updated_at)
  else none

/-- Job handed to the notification dispatcher (`tasks.delay(...)` kwargs). -/
inductive NotificationJob where
  | bookingConfirmation (bookingId : Nat)
      (userEmail listingName checkIn checkOut : String) (guests : Nat)
  | paymentConfirmation
      (userEmail bookingId amount checkIn checkOut listingName : String)
deriving DecidableEq

/-- Entity stores plus the queue of enqueued notification jobs. -/
structure St where
  users : List User
  listings : List Listing
  bookings : List Booking
  payments : List Payment
  notifications : List NotificationJob
deriving DecidableEq

/-- HTTP-ish response: status code plus the JSON body flattened to
string key/value pairs. -/
structure Resp where
  code : Nat
  body : List (String × String)
deriving DecidableEq

def getUser (st : St) (uid : Nat) : Option User :=
  st.users.find? (fun u => u.id == uid)

def getListing (st : St) (lid : Nat) : Option Listing :=
  st.listings.find? (fun l => l.id == lid)

def getBooking (st : St) (bid : Nat) : Option Booking :=
  st.bookings.find? (fun b => b.id == bid)

/-- `self.get_object()` inside `BookingViewSet`: the queryset is filtered to
the requesting user (`views.py` lines 40-42), so the lookup is by pk AND
owner. -/
def getOwnedBooking (st : St) (pk : Nat) (requester : User) : Option Booking :=
  st.bookings.find? (fun b => b.id == pk && b.user == requester.id)

/-- `Payment.objects.filter(transaction_id=tx_ref).first()`
(`views.py` line 194). -/
def findPaymentByTx (st : St) (tx : String) : Option Payment :=
  st.payments.find? (fun p => p.transaction_id == tx)

/-- `booking.payments.filter(payment_status='completed').exists()`
(`views.py` line 84). -/
def hasCompletedPayment (st : St) (bid : Nat) : Bool :=
  st.payments.any (fun p => p.booking == bid && p.payment_status == "completed")

/-- Number of completed payments linked to a booking. -/
def completedCount (st : St) (bid : Nat) : Nat :=
  (st.payments.filter
    (fun p => p.booking == bid && p.payment_status == "completed")).length

/-- `payment.save()` on an existing row: replace the row with the same pk. -/
def savePayment (st : St) (p : Payment) : St :=
  { st with payments := st.payments.map (fun q => if q.id == p.id then p else q) }

/-- `booking.save()` on an existing row. -/
def saveBooking (st : St) (b : Booking) : St :=
  { st with bookings := st.bookings.map (fun c => if c.id == b.id then b else c) }

/-- Gateway outcome of `POST /transaction/initialize` as the view branches
on it (`views.py` lines 113-159): HTTP 200 with body status success carrying
a checkout url; a definitive non-success answer; or a
`requests.RequestException` (network/timeout). -/
inductive GwInit where
  | success (checkoutUrl : String)
  | rejected
  | unavailable
deriving DecidableEq

/-- Gateway outcome of `GET /transaction/verify/' + tx_ref` as the view
branches on it (`views.py` lines 179-243): `ok s m` is an HTTP 200 envelope
with body status success whose `data` carries `status = s` and
`payment_method = m`; `rejected` is a non-200 or non-success envelope;
`unavailable` is a `requests.RequestException`. -/
inductive GwVerify where
  | ok (paymentInfoStatus : String) (paymentMethod : String)
  | rejected
  | unavailable
deriving DecidableEq

namespace BookingViewSet

/-- Modelled from the spec: `BookingSerializer.save` (serializers.py is not
under src/); section 4.3 of the spec treats validation and persistence of
the booking as an external collaborator that persists the booking row with
the provided fields. `perform_create` (views.py line 46) passes the owner
and status pending explicitly. -/
def serializerSave (st : St) (b : Booking) : St :=
  { st with bookings := st.bookings ++ [b] }

/-- Try-block around `send_booking_confirmation_email.delay(...)`
(`views.py` lines 50-61). Building the kwargs reads `booking.listing.name`;
`Listing.attr` yields `none` for `name` (the model field is `title`), the
`AttributeError` is caught by the `except` and only logged, so no job is
enqueued. (Even if the lookup succeeded, the call also passes a `guests`
kwarg that the task signature in `tasks.py` line 14 does not accept.) -/
def enqueueBookingConfirmation (st : St) (b : Booking) (requester : User) : St :=
  match (getListing st b.listing).bind (fun l => Listing.attr l "name") with
  | some nm =>
      { st with notifications := st.notifications ++
          [NotificationJob.bookingConfirmation b.id requester.email nm
            b.check_in b.check_out b.guests] }
  | none => st

/-- `BookingViewSet.perform_create` (`views.py` lines 44-61): persist the
booking with the requesting user and status pending, then try to queue the
confirmation email. -/
def perform_create (st : St) (requester : User) (listingId : Nat)
    (checkIn checkOut : String) (guests : Nat) (totalPrice : Rat)
    (newId : Nat) (newBookingId : String) (now : Nat) : Booking × St :=
  let booking : Booking :=
    { id := newId, booking_id := newBookingId, listing := listingId,
      user := requester.id, check_in := checkIn, check_out := checkOut,
      guests := guests, total_price := totalPrice, status := "pending",
      created_at := now }
  let st1 := serializerSave st booking
  (booking, enqueueBookingConfirmation st1 booking requester)

/-- Response of the overridden `create` (`views.py` lines 63-73): a message
plus the serialized booking representation. -/
structure CreateResp where
  code : Nat
  message : String
  booking : Booking
deriving DecidableEq

/-- `BookingViewSet.create` (`views.py` lines 63-73): validation is assumed
to pass (it belongs to the external serializer); returns 201 with the
booking representation and a user-friendly message. -/
def create (st : St) (requester : User) (listingId : Nat)
    (checkIn checkOut : String) (guests : Nat) (totalPrice : Rat)
    (newId : Nat) (newBookingId : String) (now : Nat) : CreateResp × St :=
  let r := perform_create st requester listingId checkIn checkOut guests
      totalPrice newId newBookingId now
  ({ code := 201,
     message := "Booking created successfully. Confirmation email will be sent shortly.",
     booking := r.1 }, r.2)

/-- `BookingViewSet.initiate_payment` (`views.py` lines 75-159).
Arguments externalise the nondeterminism: `txRef` is the fresh
`tx-{uuid4}` reference, `newId`/`newPaymentId` the pk and uuid of the row
`Payment.objects.create` would mint, `gw` the gateway outcome, `now` the
clock tick for the `auto_now`/`auto_now_add` stamps. -/
def initiate_payment (st : St) (pk : Nat) (requester : User) (txRef : String)
    (newId : Nat) (newPaymentId : String) (gw : GwInit) (now : Nat) :
    Resp × St :=
  match getOwnedBooking st pk requester with
  | none => ({ code := 404, body := [("detail", "Not found.")] }, st)
  | some booking =>
    if hasCompletedPayment st booking.id then
      ({ code := 400,
         body := [("error", "This booking already has a completed payment.")] }, st)
    else
      match gw with
      | GwInit.success url =>
          let payment : Payment :=
            { id := newId, payment_id := newPaymentId, booking := booking.id,
              transaction_id := txRef, amount := booking.total_price,
              currency := "ETB", payment_status := "pending",
              payment_method := "", chapa_reference := txRef,
              checkout_url := url, created_at := now, updated_at := now }
          ({ code := 200,
             body := [("message", "Payment initiated successfully"),
                      ("payment_id", newPaymentId),
                      ("checkout_url", url),
                      ("transaction_reference", txRef)] },
           { st with payments := st.payments ++ [payment] })
      | GwInit.rejected =>
          ({ code := 400,
             body := [("error", "Failed to initiate payment with Chapa")] }, st)
      | GwInit.unavailable =>
          ({ code := 503,
             body := [("error", "Payment service temporarily unavailable")] }, st)

end BookingViewSet

/-- Try-block around `send_payment_confirmation_email.delay(...)`
(`views.py` lines 211-222). The kwargs read `booking.user.email` and
`booking.listing.name`; the latter raises `AttributeError` (the model field
is `title`), which the `except` catches and logs, so no job is enqueued.
(The task itself is not defined in `tasks.py`; the enqueue interface is the
one the spec gives the Notification Dispatcher.) -/
def enqueuePaymentConfirmation (st : St) (b : Booking) (p : Payment) : St :=
  match getUser st b.user,
        (getListing st b.listing).bind (fun l => Listing.attr l "name") with
  | some u, some nm =>
      { st with notifications := st.notifications ++
          [NotificationJob.paymentConfirmation u.email b.booking_id
            (ratStr p.amount) b.check_in b.check_out nm] }
  | _, _ => st

/-- `verify_payment` (`views.py` lines 166-243). `txRef` is the `tx_ref`
request parameter; `gw` the gateway verification outcome; `now` the clock
tick; `bookingSaveOk` models whether the `booking.save()` persistence step
succeeds — the code wraps no transaction around the two saves, so when
`booking.save()` raises, the already-executed `payment.save()` stays
committed and the blanket `except Exception` returns 500. The
`payment.verified_at = timezone.now()` assignment is absent from the state
because `verified_at` is not a declared model field and `save()` does not
persist it. -/
def verify_payment (st : St) (txRef : Option String) (gw : GwVerify)
    (now : Nat) (bookingSaveOk : Bool) : Resp × St :=
  match txRef with
  | none => ({ code := 400, body := [("error", "tx_ref is required")] }, st)
  | some tx =>
    match gw with
    | GwVerify.unavailable =>
        ({ code := 503, body := [("error", "Verification service unavailable")] }, st)
    | GwVerify.rejected =>
        ({ code := 400, body := [("error", "Payment verification failed")] }, st)
    | GwVerify.ok pstat pmethod =>
      match findPaymentByTx st tx with
      | none => ({ code := 404, body := [("error", "Payment record not found")] }, st)
      | some payment =>
        if pstat == "success" then
          let payment2 : Payment :=
            { payment with payment_status := "completed",
                           payment_method := pmethod, updated_at := now }
          let st1 := savePayment st payment2
          match getBooking st1 payment.booking with
          | none =>
              ({ code := 500, body := [("error", "Internal server error")] }, st1)
          | some booking =>
            if bookingSaveOk then
              let booking2 : Booking := { booking with status := "confirmed" }
              let st2 := saveBooking st1 booking2
              ({ code := 200,
                 body := [("message", "Payment verified and confirmed"),
                          ("booking_id", booking.booking_id),
                          ("payment_status", "completed")] },
               enqueuePaymentConfirmation st2 booking2 payment2)
            else
              ({ code := 500, body := [("error", "Internal server error")] }, st1)
        else
          let payment2 : Payment :=
            { payment with payment_status := "failed", updated_at := now }
          ({ code := 400,
             body := [("message", "Payment failed"), ("payment_status", "failed")] },
           savePayment st payment2)

/-- `payment_status` (`views.py` lines 246-274). The whole body sits in a
try-block whose `except Exception` returns 400, so the `Http404` raised by
`get_object_or_404` for an unknown id is swallowed into a 400, and the
`AttributeError` raised while the response dict reads
`payment.verified_at` (no such model field) is likewise swallowed into a
400; only the ownership check can still answer 403. The view performs no
writes, so it returns only a response. -/
def payment_status (st : St) (requester : User) (pid : String) : Resp :=
  match st.payments.find? (fun p => p.payment_id == pid) with
  | none =>
      { code := 400, body := [("error", "Failed to retrieve payment status")] }
  | some p =>
    match getBooking st p.booking with
    | none =>
        { code := 400, body := [("error", "Failed to retrieve payment status")] }
    | some b =>
      if b.user != requester.id then
        { code := 403, body := [("error", "Unauthorized")] }
      else
        match p.attr "verified_at" with
        | some v =>
            { code := 200,
              body := [("payment_id", p.payment_id),
                       ("booking_id", b.booking_id),
                       ("amount", ratStr p.amount),
                       ("currency", p.currency),
                       ("status", p.payment_status),
                       ("transaction_id", p.transaction_id),
                       ("checkout_url", p.checkout_url),
                       ("created_at", toString p.created_at),
                       ("updated_at", toString p.updated_at),
                       ("verified_at", v)] }
        | none =>
            { code := 400, body := [("error", "Failed to retrieve payment status")] }

/-! Concrete fixture used by the closed theorems. -/

def user1 : User :=
  { id := 1, username := "alice", email := "alice@example.com",
    first_name := "Alice", last_name := "A" }

def user2 : User :=
  { id := 2, username := "bob", email := "bob@example.com",
    first_name := "Bob", last_name := "B" }

def listing1 : Listing :=
  { id := 1, title := "Beach House", description := "d", location := "Addis",
    price_per_night := 50, available := true, created_at := 0 }

def booking1 : Booking :=
  { id := 1, booking_id := "b-uuid-1", listing := 1, user := 1,
    check_in := "2026-01-01", check_out := "2026-01-05", guests := 2,
    total_price := 100, status := "pending", created_at := 0 }

def st0 : St :=
  { users := [user1, user2], listings := [listing1], bookings := [booking1],
    payments := [], notifications := [] }

/-- State after a successful `initiate_payment` on the fixture booking. -/
def st1 : St :=
  (BookingViewSet.initiate_payment st0 1 user1 "tx-1" 1 "pay-1"
    (GwInit.success "https://pay/1") 1).2

/-- The pending payment row that the fixture `initiate_payment` created. -/
def payment1 : Payment :=
  { id := 1, payment_id := "pay-1", booking := 1, transaction_id := "tx-1",
    amount := 100, currency := "ETB", payment_status := "pending",
    payment_method := "", chapa_reference := "tx-1",
    checkout_url := "https://pay/1", created_at := 1, updated_at := 1 }

/-- State after a second successful `initiate_payment` on the same booking:
the guard passes again because no payment is completed yet. -/
def st2 : St :=
  (BookingViewSet.initiate_payment st1 1 user1 "tx-2" 2 "pay-2"
    (GwInit.success "https://pay/2") 2).2

/-- First verification of tx-1, gateway reporting success, at tick 3. -/
def verify1 : Resp × St :=
  verify_payment st1 (some "tx-1") (GwVerify.ok "success" "card") 3 true

/-- Replay of the same verification (same tx_ref, same gateway success
response) at tick 4, applied to the state the first call produced. -/
def verify2 : Resp × St :=
  verify_payment verify1.2 (some "tx-1") (GwVerify.ok "success" "card") 4 true

/-- Both pending payments of the double-initiation state verified with
gateway success, one after the other. -/
def st4 : St :=
  (verify_payment
    (verify_payment st2 (some "tx-1") (GwVerify.ok "success" "card") 3 true).2
    (some "tx-2") (GwVerify.ok "success" "card") 4 true).2

/-- Booking creation on the fixture state (fresh booking pk 2). -/
def created : BookingViewSet.CreateResp × St :=
  BookingViewSet.create st0 user1 1 "2026-02-01" "2026-02-03" 2 100 2
    "b-uuid-2" 7

/-! Helper lemmas about the store operations. -/

/-- Updating the row found by a transaction-reference lookup (keeping its pk
and reference) makes the subsequent lookup return the updated row. -/
theorem find?_update_of_found (l : List Payment) (tx : String) (p p' : Payment)
    (h : l.find? (fun q => q.transaction_id == tx) = some p)
    (hid : p'.id = p.id) (htx : p'.transaction_id = p.transaction_id) :
    (l.map (fun q => if q.id == p'.id then p' else q)).find?
      (fun q => q.transaction_id == tx) = some p' := by
  induction l with
  | nil => simp at h
  | cons q rest ih =>
    simp only [List.map_cons]
    by_cases hq : (q.transaction_id == tx) = true
    · rw [@List.find?_cons_of_pos Payment (fun r => r.transaction_id == tx) q rest hq] at h
      injection h with h
      subst h
      have hcond : (q.id == p'.id) = true := by rw [hid]; exact beq_self_eq_true _
      simp only [hcond, if_true]
      have hp' : (p'.transaction_id == tx) = true := by rw [htx]; exact hq
      exact @List.find?_cons_of_pos Payment (fun r => r.transaction_id == tx) p' _ hp'
    · rw [@List.find?_cons_of_neg Payment (fun r => r.transaction_id == tx) q rest hq] at h
      have hptx : (p.transaction_id == tx) = true :=
        @List.find?_some Payment (fun r => r.transaction_id == tx) p rest h
      by_cases hqid : (q.id == p'.id) = true
      · simp only [hqid, if_true]
        have hp' : (p'.transaction_id == tx) = true := by rw [htx]; exact hptx
        exact @List.find?_cons_of_pos Payment (fun r => r.transaction_id == tx) p' _ hp'
      · have hqid2 : (q.id == p'.id) = false := by
          cases hcase : (q.id == p'.id)
          · rfl
          · exact absurd hcase hqid
        simp only [hqid2, Bool.false_eq_true, if_false]
        rw [@List.find?_cons_of_neg Payment (fun r => r.transaction_id == tx) q _ hq]
        exact ih h

/-- `savePayment` of the row found by `findPaymentByTx` (with pk and
reference kept) is observed by the next `findPaymentByTx`. -/
theorem findPaymentByTx_savePayment (st : St) (tx : String) (p p' : Payment)
    (h : findPaymentByTx st tx = some p)
    (hid : p'.id = p.id) (htx : p'.transaction_id = p.transaction_id) :
    findPaymentByTx (savePayment st p') tx = some p' :=
  find?_update_of_found st.payments tx p p' h hid htx

/-- `saveBooking` leaves the payment store untouched. -/
theorem findPaymentByTx_saveBooking (st : St) (b : Booking) (tx : String) :
    findPaymentByTx (saveBooking st b) tx = findPaymentByTx st tx := rfl

/-- The notification-enqueue attempt never touches the payment store. -/
theorem payments_enqueuePaymentConfirmation (st : St) (b : Booking) (p : Payment) :
    (enqueuePaymentConfirmation st b p).payments = st.payments := by
  unfold enqueuePaymentConfirmation
  cases getUser st b.user <;>
    cases (getListing st b.listing).bind (fun l => Listing.attr l "name") <;> rfl

/-- Transaction-reference lookup only reads the payment store. -/
theorem findPaymentByTx_eq_of_payments (st st' : St) (tx : String)
    (h : st'.payments = st.payments) :
    findPaymentByTx st' tx = findPaymentByTx st tx := by
  unfold findPaymentByTx
  rw [h]

/-! Claim theorems. -/

/-- C1: the claimed invariant fails on the code. Starting from one pending
booking, the sequence initiate (tx-1), initiate (tx-2), verify tx-1,
verify tx-2 — all gateway-successful — leaves TWO payments of the booking
with payment_status completed, because `verify_payment` never re-checks the
one-completed-payment guard that `initiate_payment` applies. The second
conjunct shows the half of the claim the code does enforce: once a
completed payment exists, a further `initiate_payment` answers 400. -/
theorem c1_two_completed_payments_reachable :
    completedCount st4 1 = 2
    ∧ (BookingViewSet.initiate_payment st4 1 user1 "tx-3" 3 "pay-3"
        (GwInit.success "https://pay/3") 5).1.code = 400 := by decide

/-- C2: `verify_payment` is not idempotent. With the payment already
completed, a second call with the same tx_ref and the same gateway success
response returns 200 but re-executes the whole success-path mutation: the
re-save restamps the auto_now `updated_at` (tick 4 instead of 3), so the
final state differs from the state after the first call. -/
theorem c2_second_verify_remutates_state :
    (findPaymentByTx verify1.2 "tx-1").map Payment.payment_status = some "completed"
    ∧ verify2.1.code = 200
    ∧ (findPaymentByTx verify2.2 "tx-1").map Payment.updated_at = some 4
    ∧ verify2.2 ≠ verify1.2 := by decide

/-- C3 counterexample: completed is not terminal. After a successful
verification the payment is completed, yet a later `verify_payment` whose
gateway report is a failure moves it to failed. -/
theorem c3_counterexample_completed_flips_to_failed :
    (findPaymentByTx verify1.2 "tx-1").map Payment.payment_status = some "completed"
    ∧ (findPaymentByTx
        (verify_payment verify1.2 (some "tx-1") (GwVerify.ok "failed" "") 5 true).2 "tx-1").map
        Payment.payment_status = some "failed" := by decide

/-- C3 amended: `verify_payment` sets the payment status from each gateway
report, regardless of the prior status — completed when the gateway data
says success, failed otherwise; neither status is terminal. -/
theorem c3_amended_status_follows_each_gateway_report (st : St) (tx : String)
    (p : Payment) (s m : String) (now : Nat) (ok : Bool)
    (hp : findPaymentByTx st tx = some p) :
    (findPaymentByTx (verify_payment st (some tx) (GwVerify.ok s m) now ok).2 tx).map
        Payment.payment_status
      = some (if s == "success" then "completed" else "failed") := by
  by_cases hs : (s == "success") = true
  · simp only [verify_payment, hp, hs, if_true]
    split
    · rw [findPaymentByTx_savePayment st tx p
        { p with payment_status := "completed", payment_method := m, updated_at := now }
        hp rfl rfl]
      rfl
    · split
      · rw [findPaymentByTx_eq_of_payments _ _ _
          (payments_enqueuePaymentConfirmation _ _ _),
          findPaymentByTx_saveBooking,
          findPaymentByTx_savePayment st tx p
            { p with payment_status := "completed", payment_method := m, updated_at := now }
            hp rfl rfl]
        rfl
      · rw [findPaymentByTx_savePayment st tx p
          { p with payment_status := "completed", payment_method := m, updated_at := now }
          hp rfl rfl]
        rfl
  · have hs2 : (s == "success") = false := by
      cases hcase : (s == "success")
      · rfl
      · exact absurd hcase hs
    simp only [verify_payment, hp, hs2, Bool.false_eq_true, if_false]
    rw [findPaymentByTx_savePayment st tx p
      { p with payment_status := "failed", updated_at := now } hp rfl rfl]
    rfl

/-- C4: the success-path mutation is not atomic. With the payment pending
and the gateway reporting success, a failure of the `booking.save()` step
(no transaction wraps the two saves) ends the operation in a state where
the payment is completed while its booking is still pending — exactly the
intermediate state the claim rules out. -/
theorem c4_partial_write_reachable :
    (verify_payment st1 (some "tx-1") (GwVerify.ok "success" "card") 3 false).1.code = 500
    ∧ (findPaymentByTx
        (verify_payment st1 (some "tx-1") (GwVerify.ok "success" "card") 3 false).2
        "tx-1").map Payment.payment_status = some "completed"
    ∧ (getBooking
        (verify_payment st1 (some "tx-1") (GwVerify.ok "success" "card") 3 false).2
        1).map Booking.status = some "pending" := by decide

/-- C5: when the gateway call of `initiate_payment` fails, no payment row
is created (the state is returned unchanged) and the two failure kinds are
distinguishable: a `requests.RequestException` yields 503 with the
temporarily-unavailable message, a definitive gateway rejection yields 400
with the client-visible error. -/
theorem c5_gateway_failures_distinguished_no_payment (st : St) (pk : Nat)
    (u : User) (tx : String) (nid : Nat) (npid : String) (now : Nat)
    (b : Booking) (hb : getOwnedBooking st pk u = some b)
    (hguard : hasCompletedPayment st b.id = false) :
    (BookingViewSet.initiate_payment st pk u tx nid npid GwInit.unavailable now).1.code = 503
    ∧ (BookingViewSet.initiate_payment st pk u tx nid npid GwInit.unavailable now).2 = st
    ∧ ("error", "Payment service temporarily unavailable")
        ∈ (BookingViewSet.initiate_payment st pk u tx nid npid GwInit.unavailable now).1.body
    ∧ (BookingViewSet.initiate_payment st pk u tx nid npid GwInit.rejected now).1.code = 400
    ∧ (BookingViewSet.initiate_payment st pk u tx nid npid GwInit.rejected now).2 = st
    ∧ ("error", "Failed to initiate payment with Chapa")
        ∈ (BookingViewSet.initiate_payment st pk u tx nid npid GwInit.rejected now).1.body := by
  simp [BookingViewSet.initiate_payment, hb, hguard]

/-- C6: on gateway success `initiate_payment` appends exactly one payment
row with status pending, amount equal to the booking total, currency ETB,
the fresh transaction reference (also as chapa_reference) and the gateway
checkout url; it answers 200 carrying the checkout url, payment id and
transaction reference; bookings (and hence the booking status) are
untouched. -/
theorem c6_success_creates_pending_payment (st : St) (pk : Nat) (u : User)
    (tx : String) (nid : Nat) (npid url : String) (now : Nat) (b : Booking)
    (hb : getOwnedBooking st pk u = some b)
    (hguard : hasCompletedPayment st b.id = false) :
    ∃ pNew : Payment,
      (BookingViewSet.initiate_payment st pk u tx nid npid (GwInit.success url) now).2.payments
          = st.payments ++ [pNew]
      ∧ pNew.payment_status = "pending"
      ∧ pNew.amount = b.total_price
      ∧ pNew.currency = "ETB"
      ∧ pNew.transaction_id = tx
      ∧ pNew.chapa_reference = tx
      ∧ pNew.checkout_url = url
      ∧ pNew.payment_id = npid
      ∧ pNew.booking = b.id
      ∧ (BookingViewSet.initiate_payment st pk u tx nid npid (GwInit.success url) now).2.bookings
          = st.bookings
      ∧ (BookingViewSet.initiate_payment st pk u tx nid npid (GwInit.success url) now).2.notifications
          = st.notifications
      ∧ (BookingViewSet.initiate_payment st pk u tx nid npid (GwInit.success url) now).1.code = 200
      ∧ ("checkout_url", url)
          ∈ (BookingViewSet.initiate_payment st pk u tx nid npid (GwInit.success url) now).1.body
      ∧ ("payment_id", npid)
          ∈ (BookingViewSet.initiate_payment st pk u tx nid npid (GwInit.success url) now).1.body
      ∧ ("transaction_reference", tx)
          ∈ (BookingViewSet.initiate_payment st pk u tx nid npid (GwInit.success url) now).1.body := by
  refine ⟨{ id := nid, payment_id := npid, booking := b.id, transaction_id := tx,
            amount := b.total_price, currency := "ETB", payment_status := "pending",
            payment_method := "", chapa_reference := tx, checkout_url := url,
            created_at := now, updated_at := now },
          ?_, rfl, rfl, rfl, rfl, rfl, rfl, rfl, rfl, ?_, ?_, ?_, ?_, ?_, ?_⟩ <;>
    simp [BookingViewSet.initiate_payment, hb, hguard]

/-- C7: when the gateway data reports a non-success status for an existing
payment, `verify_payment` answers 400, sets that payment to failed, and
leaves every booking (and the users, listings and notification queue)
exactly as before; other payment rows survive unchanged. -/
theorem c7_failure_report_sets_failed_and_preserves_booking (st : St)
    (tx s m : String) (now : Nat) (ok : Bool) (p : Payment)
    (hp : findPaymentByTx st tx = some p)
    (hs : (s == "success") = false) :
    (verify_payment st (some tx) (GwVerify.ok s m) now ok).1.code = 400
    ∧ (findPaymentByTx (verify_payment st (some tx) (GwVerify.ok s m) now ok).2 tx).map
        Payment.payment_status = some "failed"
    ∧ (verify_payment st (some tx) (GwVerify.ok s m) now ok).2.bookings = st.bookings
    ∧ (verify_payment st (some tx) (GwVerify.ok s m) now ok).2.notifications = st.notifications
    ∧ (verify_payment st (some tx) (GwVerify.ok s m) now ok).2.users = st.users
    ∧ (verify_payment st (some tx) (GwVerify.ok s m) now ok).2.listings = st.listings
    ∧ (verify_payment st (some tx) (GwVerify.ok s m) now ok).2.payments.length
        = st.payments.length
    ∧ ∀ q ∈ st.payments, q.id ≠ p.id →
        q ∈ (verify_payment st (some tx) (GwVerify.ok s m) now ok).2.payments := by
  have hred : verify_payment st (some tx) (GwVerify.ok s m) now ok
      = ({ code := 400,
           body := [("message", "Payment failed"), ("payment_status", "failed")] },
         savePayment st { p with payment_status := "failed", updated_at := now }) := by
    simp only [verify_payment, hp, hs, Bool.false_eq_true, if_false]
  rw [hred]
  refine ⟨rfl, ?_, rfl, rfl, rfl, rfl, by simp [savePayment], ?_⟩
  · rw [findPaymentByTx_savePayment st tx p
      { p with payment_status := "failed", updated_at := now } hp rfl rfl]
    rfl
  · intro q hq hne
    simp only [savePayment]
    refine List.mem_map.mpr ⟨q, hq, ?_⟩
    have hne2 : (q.id == p.id) = false := by
      cases hcase : (q.id == p.id)
      · rfl
      · exact absurd (eq_of_beq hcase) hne
    simp [hne2]

/-- C8: booking creation persists the booking with status pending and
answers 201 with the booking representation and the message, but the
required side effect never happens: building the notification kwargs reads
`booking.listing.name`, an attribute `Listing` does not declare, so the
caught `AttributeError` leaves the notification queue empty instead of
holding one booking-confirmation job. -/
theorem c8_creation_enqueues_no_notification :
    created.1.code = 201
    ∧ created.1.message
        = "Booking created successfully. Confirmation email will be sent shortly."
    ∧ created.1.booking.status = "pending"
    ∧ (getBooking created.2 2).map Booking.status = some "pending"
    ∧ created.2.notifications = [] := by decide

/-- C9: `payment_status` never answers as claimed except for the 403 case.
For an unknown payment id the `Http404` is swallowed by the blanket except
into a 400 (claim says 404), and for the owner of an existing payment the
response-dict read of the undeclared `verified_at` attribute turns the
answer into the same 400 (claim says 200 with the projection); the
non-owner check still yields 403. -/
theorem c9_payment_status_answers :
    payment_status st1 user1 "missing"
        = { code := 400, body := [("error", "Failed to retrieve payment status")] }
    ∧ (payment_status st1 user2 "pay-1").code = 403
    ∧ payment_status st1 user1 "pay-1"
        = { code := 400, body := [("error", "Failed to retrieve payment status")] } := by
  decide

/-- C10: two `verify_payment` calls for the same tx_ref do not serialize
into one mutation plus one idempotent replay — even in the fully
serialized schedule, the second call re-executes the entire success-path
mutation (there is no replay branch in the code): both calls write the
payment (updated_at stamped 3 then 4) and the booking, and the final state
of the second call differs from that of the first. -/
theorem c10_second_verify_repeats_success_mutation :
    (findPaymentByTx verify1.2 "tx-1").map Payment.updated_at = some 3
    ∧ (getBooking verify1.2 1).map Booking.status = some "confirmed"
    ∧ verify2.1.code = 200
    ∧ (findPaymentByTx verify2.2 "tx-1").map Payment.updated_at = some 4
    ∧ verify2.2 ≠ verify1.2 := by decide

/-- Witness for the amended C3 theorem: the fixture pending payment with a
gateway report of failed. -/
theorem c3_amended_witness :
    findPaymentByTx st1 "tx-1" = some payment1
    ∧ (findPaymentByTx
        (verify_payment st1 (some "tx-1") (GwVerify.ok "failed" "") 9 true).2 "tx-1").map
        Payment.payment_status
      = some (if "failed" == "success" then "completed" else "failed") :=
  ⟨by decide,
   c3_amended_status_follows_each_gateway_report st1 "tx-1" payment1 "failed" "" 9 true
     (by decide)⟩

/-- Witness for the C5 theorem on the fixture booking with no payment. -/
theorem c5_witness :
    getOwnedBooking st0 1 user1 = some booking1
    ∧ hasCompletedPayment st0 booking1.id = false
    ∧ ((BookingViewSet.initiate_payment st0 1 user1 "tx-9" 9 "pay-9" GwInit.unavailable 9).1.code = 503
      ∧ (BookingViewSet.initiate_payment st0 1 user1 "tx-9" 9 "pay-9" GwInit.unavailable 9).2 = st0
      ∧ ("error", "Payment service temporarily unavailable")
          ∈ (BookingViewSet.initiate_payment st0 1 user1 "tx-9" 9 "pay-9" GwInit.unavailable 9).1.body
      ∧ (BookingViewSet.initiate_payment st0 1 user1 "tx-9" 9 "pay-9" GwInit.rejected 9).1.code = 400
      ∧ (BookingViewSet.initiate_payment st0 1 user1 "tx-9" 9 "pay-9" GwInit.rejected 9).2 = st0
      ∧ ("error", "Failed to initiate payment with Chapa")
          ∈ (BookingViewSet.initiate_payment st0 1 user1 "tx-9" 9 "pay-9" GwInit.rejected 9).1.body) :=
  ⟨by decide, by decide,
   c5_gateway_failures_distinguished_no_payment st0 1 user1 "tx-9" 9 "pay-9" 9 booking1
     (by decide) (by decide)⟩

/-- Witness for the C6 theorem on the fixture booking with no payment. -/
theorem c6_witness :
    getOwnedBooking st0 1 user1 = some booking1
    ∧ hasCompletedPayment st0 booking1.id = false
    ∧ (∃ pNew : Payment,
        (BookingViewSet.initiate_payment st0 1 user1 "tx-9" 9 "pay-9"
            (GwInit.success "https://pay/9") 9).2.payments = st0.payments ++ [pNew]
        ∧ pNew.payment_status = "pending"
        ∧ pNew.amount = booking1.total_price
        ∧ pNew.currency = "ETB"
        ∧ pNew.transaction_id = "tx-9"
        ∧ pNew.chapa_reference = "tx-9"
        ∧ pNew.checkout_url = "https://pay/9"
        ∧ pNew.payment_id = "pay-9"
        ∧ pNew.booking = booking1.id
        ∧ (BookingViewSet.initiate_payment st0 1 user1 "tx-9" 9 "pay-9"
            (GwInit.success "https://pay/9") 9).2.bookings = st0.bookings
        ∧ (BookingViewSet.initiate_payment st0 1 user1 "tx-9" 9 "pay-9"
            (GwInit.success "https://pay/9") 9).2.notifications = st0.notifications
        ∧ (BookingViewSet.initiate_payment st0 1 user1 "tx-9" 9 "pay-9"
            (GwInit.success "https://pay/9") 9).1.code = 200
        ∧ ("checkout_url", "https://pay/9")
            ∈ (BookingViewSet.initiate_payment st0 1 user1 "tx-9" 9 "pay-9"
                (GwInit.success "https://pay/9") 9).1.body
        ∧ ("payment_id", "pay-9")
            ∈ (BookingViewSet.initiate_payment st0 1 user1 "tx-9" 9 "pay-9"
                (GwInit.success "https://pay/9") 9).1.body
        ∧ ("transaction_reference", "tx-9")
            ∈ (BookingViewSet.initiate_payment st0 1 user1 "tx-9" 9 "pay-9"
                (GwInit.success "https://pay/9") 9).1.body) :=
  ⟨by decide, by decide,
   c6_success_creates_pending_payment st0 1 user1 "tx-9" 9 "pay-9" "https://pay/9" 9 booking1
     (by decide) (by decide)⟩

/-- Witness for the C7 theorem: the fixture pending payment with a gateway
report of failed. -/
theorem c7_witness :
    findPaymentByTx st1 "tx-1" = some payment1
    ∧ ("failed" == "success") = false
    ∧ ((verify_payment st1 (some "tx-1") (GwVerify.ok "failed" "") 9 true).1.code = 400
      ∧ (findPaymentByTx
          (verify_payment st1 (some "tx-1") (GwVerify.ok "failed" "") 9 true).2 "tx-1").map
          Payment.payment_status = some "failed"
      ∧ (verify_payment st1 (some "tx-1") (GwVerify.ok "failed" "") 9 true).2.bookings = st1.bookings
      ∧ (verify_payment st1 (some "tx-1") (GwVerify.ok "failed" "") 9 true).2.notifications = st1.notifications
      ∧ (verify_payment st1 (some "tx-1") (GwVerify.ok "failed" "") 9 true).2.users = st1.users
      ∧ (verify_payment st1 (some "tx-1") (GwVerify.ok "failed" "") 9 true).2.listings = st1.listings
      ∧ (verify_payment st1 (some "tx-1") (GwVerify.ok "failed" "") 9 true).2.payments.length
          = st1.payments.length
      ∧ ∀ q ∈ st1.payments, q.id ≠ payment1.id →
          q ∈ (verify_payment st1 (some "tx-1") (GwVerify.ok "failed" "") 9 true).2.payments) :=
  ⟨by decide, by decide,
   c7_failure_report_sets_failed_and_preserves_booking st1 "tx-1" "failed" "" 9 true payment1
     (by decide) (by decide)⟩

end AlxTravelApp
